import Mathlib

/-!
Shallow embedding of the offline-cache synchronization hooks of the
frappe-react-sdk repository (src/lib/index.tsx, lines 1579-2027):
useFrappeGetDocOffline, useFrappeGetDocListOffline, useFrappeGetCallOffline,
useGetLastFetched and their helper functions, together with theorems
settling the specification claims about them.

Modelling conventions:
- A JavaScript Date object is modelled by its getTime() value in
  milliseconds (an Int); Math.floor on such a value is the identity.
- convertDateToMiliseconds parses a "Y-m-d H:M:S" string through the JS
  Date constructor in the local timezone; this environment-dependent parse
  is modelled by an explicit parameter toMs : String -> Int, and
  formatedTimestamp similarly by fmt : Int -> String, encodeURIComponent
  by enc : String -> String.
- A value that may be undefined is an Option; JS truthiness is made
  explicit where the source branches on it (the empty string and
  undefined are falsy; objects, including Date, are truthy).
- React state cells (shouldLoad, lastFetched) are explicit arguments and
  results; each useEffect body becomes a pure step function from its
  dependencies and the previous state to the new state or store.
-/

namespace FrappeOffline

variable {β : Type}

/-- Truthiness of a JavaScript string: the empty string is falsy, every other
string is truthy. -/
def strTruthy (s : String) : Bool := s != ""

/-- Truthiness of the has_permission value, of JS type boolean-or-undefined:
only a present true is truthy. -/
def permTruthy : Option Bool → Bool
  | some true => true
  | _ => false

/-- A record of the docs table in IndexedDB (interface lastFetchType in the
source). lastFetchedOn is a Date, modelled by its getTime() milliseconds;
count is optional because the list hook stores the possibly-undefined
listCount value into it. -/
structure LastFetch (β : Type) where
  _id : String
  name : String
  doctype : String
  lastFetchedOn : Int
  modified : String
  count : Option Int
  data : β
  deriving Repr, DecidableEq

/-- The three states of the lastFetched React state returned by
useGetLastFetched: null while the asynchronous IndexedDB read is pending,
undefined when the store answered that no record exists, or the record. -/
inductive CacheRead (β : Type) where
  | loading
  | missing
  | found (r : LastFetch β)
  deriving Repr, DecidableEq

/-- lastFetchExist: lastFetched is neither undefined nor null. -/
def lastFetchExist : CacheRead β → Bool
  | .found _ => true
  | _ => false

/-- The docs object store, keyed by the composite _id string. -/
def Store (β : Type) := String → Option (LastFetch β)

/-- Dexie table put: upsert at the record's own _id key. -/
def Store.put (st : Store β) (r : LastFetch β) : Store β :=
  fun k => if k = r._id then some r else st k

/-- Dexie table delete: removes the record at the key if present, a no-op
otherwise. -/
def Store.del (st : Store β) (k : String) : Store β :=
  fun q => if q = k then none else st q

/-- A store holding no records. -/
def Store.empty : Store β := fun _ => none

/-- The CustomError class of the source (lines 2016-2027). -/
structure CustomError where
  httpStatus : Int
  httpStatusText : String
  message : String
  exception : String
  deriving Repr, DecidableEq

/-- The CustomError value the document and list hooks place in their error
field whenever hasPermission is not truthy (lines 1690 and 1843). -/
def permissionError (doctype : String) : CustomError :=
  { httpStatus := 403
    httpStatusText := "FORBIDDEN"
    message := "there was an error"
    exception := "frappe.exceptions.PermissionError: No permission for " ++ doctype }

/-- An error surfaced by an offline hook: either the error object of the
underlying SWR fetch or a CustomError built by the hook itself. -/
inductive HookError where
  | fetchErr (msg : String)
  | custom (e : CustomError)
  deriving Repr, DecidableEq

/-- The part of an SWR response that the offline hooks read. -/
structure SWRState (β : Type) where
  data : Option β
  error : Option String
  isLoading : Bool
  isValidating : Bool
  deriving Repr, DecidableEq

/-- The object returned to the caller by each offline hook. -/
structure HookResult (β : Type) where
  isLoadedFromServer : Bool
  data : Option β
  error : Option HookError
  isLoading : Bool
  isValidating : Bool
  deriving Repr, DecidableEq

/-- Composite store key used by useFrappeGetDocOffline. -/
def docKey (doctype name : String) : String := doctype ++ "_" ++ name

/-- A document fetched by useFrappeGetDoc: a FrappeDoc carries the server's
modified timestamp among its fields; the remaining fields are abstract. -/
structure FrappeDocM (β : Type) where
  modified : String
  fields : β
  deriving Repr, DecidableEq

/-- Whether the SWR key of the frappe.client.get_value modified-timestamp
probe is active (line 1618): undefined (active) iff a cached record exists
and permission is truthy, null (inactive) otherwise. -/
def docSignalActive (hasPermission : Option Bool) (lf : CacheRead β) : Bool :=
  lastFetchExist lf && permTruthy hasPermission

/-- One run of the staleness effect of useFrappeGetDocOffline
(lines 1623-1647), restricted to the shouldLoad state it computes.
The modified argument is the get_value response: none while the response
has not arrived, some none when it arrived with an undefined
message.modified field, and some (some s) when the field holds s. -/
def docShouldLoadStep (hasPermission : Option Bool) (lf : CacheRead β)
    (modified : Option (Option String)) (sl : Bool) : Bool :=
  if permTruthy hasPermission then
    match lf with
    | .missing => true
    | .loading => sl
    | .found r =>
      match modified with
      | none => sl
      | some none => true
      | some (some s) => sl || (strTruthy s && s != r.modified)
  else sl

/-- Store effect of the same effect run (lines 1624-1627): with a non-truthy
permission and an existing cached record, the record at the composite key is
deleted. -/
def docPermDeleteStore (st : Store β) (doctype name : String)
    (hasPermission : Option Bool) (lf : CacheRead β) : Store β :=
  if permTruthy hasPermission then st
  else if lastFetchExist lf then st.del (docKey doctype name) else st

/-- Whether the SWR key of the full useFrappeGetDoc fetch is active
(line 1652): undefined (active) iff shouldLoad and permission are truthy,
null otherwise. -/
def docFetchActive (shouldLoad : Bool) (hasPermission : Option Bool) : Bool :=
  shouldLoad && permTruthy hasPermission

/-- One run of the document write-back effect (lines 1656-1670): on fetched
data, put a fresh record at the composite key with the current time; else on
an error while a cached record exists, delete the record. -/
def docWriteBack (st : Store (FrappeDocM β)) (doctype name : String) (now : Int)
    (lf : CacheRead (FrappeDocM β)) (data : Option (FrappeDocM β))
    (error : Option String) : Store (FrappeDocM β) :=
  match data with
  | some d =>
    st.put
      { _id := docKey doctype name
        lastFetchedOn := now
        modified := d.modified
        name := name
        doctype := doctype
        data := d
        count := some 1 }
  | none =>
    if error.isSome && lastFetchExist lf then st.del (docKey doctype name) else st

/-- The object returned by useFrappeGetDocOffline (lines 1687-1695). -/
def docProject (doctype : String) (hasPermission : Option Bool)
    (lf : CacheRead β) (shouldLoad : Bool) (swr : SWRState β) : HookResult β :=
  { isLoadedFromServer := shouldLoad
    data :=
      if shouldLoad then swr.data
      else
        match lf with
        | .found r => some r.data
        | _ => none
    error :=
      if permTruthy hasPermission then swr.error.map HookError.fetchErr
      else some (HookError.custom (permissionError doctype))
    isLoading :=
      if shouldLoad then swr.isLoading
      else
        match lf with
        | .missing => true
        | _ => false
    isValidating := if shouldLoad then swr.isValidating else false }

/-- Composite store key used by useFrappeGetDocListOffline; qs stands for
getDocListQueryString args, the serialized list query. -/
def listKey (doctype qs : String) : String := doctype ++ "_" ++ qs

/-- The countNotChanged constant of the list hook (lines 1740-1743): a cached
record exists, the remote count has arrived, and it strictly equals the
record's stored count. -/
def countNotChanged (lf : CacheRead β) (listCount : Option Int) : Bool :=
  match lf, listCount with
  | .found r, some c => r.count == some c
  | _, _ => false

/-- Whether the SWR key of the 1-row modified-descending probe query is
active (line 1760): undefined (active) iff countNotChanged. -/
def listModifiedActive (lf : CacheRead β) (listCount : Option Int) : Bool :=
  countNotChanged lf listCount

/-- One run of the staleness effect of useFrappeGetDocListOffline
(lines 1771-1796), restricted to shouldLoad. toMs models
convertDateToMiliseconds; modified is the probe response, a list of modified
timestamps of which the code reads element 0; Math.floor of
lastFetchedOn.getTime() is the identity on the modelled milliseconds. -/
def listShouldLoadStep (toMs : String → Int) (hasPermission : Option Bool)
    (lf : CacheRead β) (listCount : Option Int) (modified : Option (List String))
    (sl : Bool) : Bool :=
  if permTruthy hasPermission then
    match lf with
    | .missing => true
    | .loading => sl
    | .found r =>
      if listCount.isSome && listCount != r.count then true
      else
        match modified with
        | some (m :: _) => if toMs m > r.lastFetchedOn then true else sl
        | _ => sl
  else sl

/-- Whether the SWR key of the full useFrappeGetDocList fetch is active
(line 1803). -/
def listFetchActive (shouldLoad : Bool) (hasPermission : Option Bool) : Bool :=
  shouldLoad && permTruthy hasPermission

/-- One run of the list write-back effect (lines 1808-1823); nowStr is
formatedTimestamp of the current Date. -/
def listWriteBack (st : Store β) (doctype qs : String) (now : Int) (nowStr : String)
    (lf : CacheRead β) (modified : Option (List String)) (listCount : Option Int)
    (data : Option β) (error : Option String) : Store β :=
  match data with
  | some d =>
    st.put
      { _id := listKey doctype qs
        name := listKey doctype qs
        doctype := doctype
        lastFetchedOn := now
        modified :=
          match modified with
          | some (m :: _) => if strTruthy m then m else nowStr
          | _ => nowStr
        count := listCount
        data := d }
  | none =>
    if error.isSome && lastFetchExist lf then st.del (listKey doctype qs) else st

/-- The object returned by useFrappeGetDocListOffline (lines 1840-1848). -/
def listProject (doctype : String) (hasPermission : Option Bool)
    (lf : CacheRead β) (shouldLoad : Bool) (swr : SWRState β) : HookResult β :=
  { isLoadedFromServer := shouldLoad
    data :=
      if shouldLoad then swr.data
      else
        match lf with
        | .found r => some r.data
        | _ => none
    error :=
      if permTruthy hasPermission then swr.error.map HookError.fetchErr
      else some (HookError.custom (permissionError doctype))
    isLoading :=
      if shouldLoad then swr.isLoading
      else
        match lf with
        | .missing => true
        | _ => false
    isValidating := if shouldLoad then swr.isValidating else false }

/-- A caller-supplied lastModified hint of the call hook: a JS string or a
Date object, the latter modelled by its getTime() milliseconds. -/
inductive DateVal where
  | str (s : String)
  | date (ms : Int)
  deriving Repr, DecidableEq

/-- JS truthiness of a string-or-Date value: the empty string is falsy, any
other string and every Date object is truthy. -/
def dateValTruthy : DateVal → Bool
  | .str s => strTruthy s
  | .date _ => true

/-- convertDateToMilisecondsForGetCall (lines 1974-1980): strings go through
convertDateToMiliseconds (modelled by toMs), Date objects through Math.floor
of getTime(), the identity on the modelled milliseconds. -/
def convertDateToMilisecondsForGetCall (toMs : String → Int) : DateVal → Int
  | .str s => toMs s
  | .date t => t

/-- checkTypeOfDate (lines 1983-1989): strings pass through unchanged, Date
objects are formatted by formatedTimestamp (modelled by fmt). -/
def checkTypeOfDate (fmt : Int → String) : DateVal → String
  | .str s => s
  | .date t => fmt t

/-- encodeQueryData (lines 1165-1170): join the key=value pairs with &;
enc models encodeURIComponent together with the JS stringification of the
value. -/
def encodeQueryData (enc : String → String) (data : List (String × String)) : String :=
  String.intercalate "&" (data.map (fun p => enc p.1 ++ "=" ++ enc p.2))

/-- Composite store key used by useFrappeGetCallOffline for its read, its put
and its forceDelete (lines 1873, 1912, 1938). -/
def callKey (enc : String → String) (method : String)
    (params : Option (List (String × String))) : String :=
  method ++ "_" ++ encodeQueryData enc (params.getD [])

/-- JS template-literal stringification of the raw params value, as performed
by the error branch of the call write-back effect (line 1923): a plain object
prints as [object Object] and undefined prints as undefined. -/
def jsTemplateParams : Option (List (String × String)) → String
  | some _ => "[object Object]"
  | none => "undefined"

/-- One run of the staleness effect of useFrappeGetCallOffline
(lines 1885-1896), restricted to shouldLoad. -/
def callShouldLoadStep (toMs : String → Int) (lf : CacheRead β)
    (lastModified : Option DateVal) (sl : Bool) : Bool :=
  match lf with
  | .missing => true
  | .loading => sl
  | .found r =>
    match lastModified with
    | some d =>
      if dateValTruthy d then
        if convertDateToMilisecondsForGetCall toMs d > r.lastFetchedOn then true
        else sl
      else sl
    | none => sl

/-- Whether the SWR key of the full useFrappeGetCall fetch is active
(line 1902): there is no permission gate for the call hook. -/
def callFetchActive (shouldLoad : Bool) : Bool := shouldLoad

/-- One run of the call write-back effect (lines 1909-1925). The error branch
deletes at the template-literal key built from the raw params value rather
than at the composite key used by the read and the put. -/
def callWriteBack (fmt : Int → String) (enc : String → String) (st : Store β)
    (method : String) (params : Option (List (String × String))) (now : Int)
    (lf : CacheRead β) (lastModified : Option DateVal)
    (data : Option β) (error : Option String) : Store β :=
  match data with
  | some d =>
    st.put
      { _id := callKey enc method params
        name := callKey enc method params
        doctype := method
        lastFetchedOn := now
        modified :=
          match lastModified with
          | some dv => if dateValTruthy dv then checkTypeOfDate fmt dv else fmt now
          | none => fmt now
        count := some 1
        data := d }
  | none =>
    if error.isSome && lastFetchExist lf then
      st.del (method ++ "_" ++ jsTemplateParams params)
    else st

/-- The object returned by useFrappeGetCallOffline (lines 1944-1952): the
error field passes the SWR error through with no permission wrapping. -/
def callProject (lf : CacheRead β) (shouldLoad : Bool) (swr : SWRState β) :
    HookResult β :=
  { isLoadedFromServer := shouldLoad
    data :=
      if shouldLoad then swr.data
      else
        match lf with
        | .found r => some r.data
        | _ => none
    error := swr.error.map HookError.fetchErr
    isLoading :=
      if shouldLoad then swr.isLoading
      else
        match lf with
        | .missing => true
        | _ => false
    isValidating := if shouldLoad then swr.isValidating else false }

/-- Document staleness as the specification claim words it: stale iff the
cached record is absent, or the modified signal is present and differs by
string inequality from the stored modified value, or the signal response
arrived with the field explicitly absent while a cached record exists. -/
def docStaleSpec (lf : CacheRead β) (modified : Option (Option String)) : Bool :=
  match lf with
  | .missing => true
  | .loading => false
  | .found r =>
    match modified with
    | some (some s) => s != r.modified
    | some none => true
    | none => false

/-- Document staleness as amended: a present modified value must additionally
be truthy (non-empty) for the string-inequality branch to mark the record
stale. -/
def docStaleSpecAmended (lf : CacheRead β) (modified : Option (Option String)) : Bool :=
  match lf with
  | .missing => true
  | .loading => false
  | .found r =>
    match modified with
    | some (some s) => strTruthy s && s != r.modified
    | some none => true
    | none => false

/-- List staleness as the specification claim words it: a present differing
remote count is stale; with a non-differing count, the 1-row probe timestamp
is compared to the record's stored latest-modified value and a strictly newer
probe is stale. -/
def listStaleSpec (toMs : String → Int) (lf : CacheRead β) (listCount : Option Int)
    (modified : Option (List String)) : Bool :=
  match lf with
  | .missing => true
  | .loading => false
  | .found r =>
    if listCount.isSome && listCount != r.count then true
    else
      match modified with
      | some (m :: _) => decide (toMs m > toMs r.modified)
      | _ => false

/-- List staleness as amended: the 1-row probe timestamp is compared to the
record's lastFetchedOn time, not to its stored latest-modified value. -/
def listStaleSpecAmended (toMs : String → Int) (lf : CacheRead β)
    (listCount : Option Int) (modified : Option (List String)) : Bool :=
  match lf with
  | .missing => true
  | .loading => false
  | .found r =>
    if listCount.isSome && listCount != r.count then true
    else
      match modified with
      | some (m :: _) => decide (toMs m > r.lastFetchedOn)
      | _ => false

/-- Call staleness as the specification claim words it: stale iff the cached
record is absent, or a supplied hint converts to strictly more milliseconds
than the record's fetch time. -/
def callStaleSpec (toMs : String → Int) (lf : CacheRead β)
    (lastModified : Option DateVal) : Bool :=
  match lf with
  | .missing => true
  | .loading => false
  | .found r =>
    match lastModified with
    | some d => decide (convertDateToMilisecondsForGetCall toMs d > r.lastFetchedOn)
    | none => false

/-- Call staleness as amended: the supplied hint must additionally be truthy
(a non-empty string or a Date object). -/
def callStaleSpecAmended (toMs : String → Int) (lf : CacheRead β)
    (lastModified : Option DateVal) : Bool :=
  match lf with
  | .missing => true
  | .loading => false
  | .found r =>
    match lastModified with
    | some d =>
      dateValTruthy d &&
        decide (convertDateToMilisecondsForGetCall toMs d > r.lastFetchedOn)
    | none => false

/-- Successive lastFetchedOn values stored by a run of successful document
write-backs over writes (t, d), one write-back per pair, each putting payload
d at time t. -/
def docRunFetchedAts (doctype name : String) (st : Store (FrappeDocM β)) :
    List (Int × FrappeDocM β) → List Int
  | [] => []
  | (t, d) :: rest =>
    let st' := docWriteBack st doctype name t .missing (some d) none
    (match st' (docKey doctype name) with
     | some r => [r.lastFetchedOn]
     | none => []) ++ docRunFetchedAts doctype name st' rest

/-- C10: in the document and list offline hooks, whenever the permission call
has not resolved (hasPermission is undefined), the returned error field is
already the 403 FORBIDDEN CustomError, for every cache state, shouldLoad
state and SWR state — in particular also when the fetch produced no error. -/
theorem C10_forbidden_error_while_permission_pending (doctype : String)
    (lf : CacheRead β) (sl : Bool) (swr : SWRState β) :
    (docProject doctype none lf sl swr).error
        = some (HookError.custom (permissionError doctype)) ∧
      (listProject doctype none lf sl swr).error
        = some (HookError.custom (permissionError doctype)) :=
  ⟨rfl, rfl⟩

/-- C9 counterexample: while a full fetch is in flight (shouldLoad true, SWR
validating, SWR data not yet arrived) with a cached record holding payload 42
for the same identity, the projected data is undefined, not the cached
payload, so the claimed stale-while-revalidate serving does not hold. -/
theorem C9_counterexample :
    (docProject "User" (some true)
        (.found ⟨"User_alice", "alice", "User", 100, "2024-01-01 10:00:00", some 1, (42 : Nat)⟩)
        true ⟨none, none, false, true⟩).isValidating = true ∧
      (docProject "User" (some true)
        (.found ⟨"User_alice", "alice", "User", 100, "2024-01-01 10:00:00", some 1, (42 : Nat)⟩)
        true ⟨none, none, false, true⟩).data = none ∧
      (docProject "User" (some true)
        (.found ⟨"User_alice", "alice", "User", 100, "2024-01-01 10:00:00", some 1, (42 : Nat)⟩)
        true ⟨none, none, false, true⟩).data ≠ some 42 := by
  refine ⟨rfl, rfl, ?_⟩
  decide

/-- C9 amended: while shouldLoad is true the projected data and isValidating
are exactly those of the underlying SWR fetch, for all three hooks — the
cached payload is not served during revalidation, and data stays undefined
until the fetch resolves. -/
theorem C9_fetching_serves_swr_data (doctype : String) (hp : Option Bool)
    (r : LastFetch β) (swr : SWRState β) :
    (docProject doctype hp (.found r) true swr).data = swr.data ∧
      (docProject doctype hp (.found r) true swr).isValidating = swr.isValidating ∧
      (listProject doctype hp (.found r) true swr).data = swr.data ∧
      (listProject doctype hp (.found r) true swr).isValidating = swr.isValidating ∧
      (callProject (.found r) true swr).data = swr.data ∧
      (callProject (.found r) true swr).isValidating = swr.isValidating :=
  ⟨rfl, rfl, rfl, rfl, rfl, rfl⟩

/-- C8 counterexample: during the initial asynchronous IndexedDB read (the
lastFetched state is still null and no cached record is available, shouldLoad
still false), the projected isLoading is false, not true as claimed; the
projected data is undefined. -/
theorem C8_counterexample :
    (docProject "User" none (.loading : CacheRead Nat) false
        ⟨none, none, false, false⟩).isLoading = false ∧
      (docProject "User" none (.loading : CacheRead Nat) false
        ⟨none, none, false, false⟩).data = none :=
  ⟨rfl, rfl⟩

/-- C8 amended: with no prior cached record and shouldLoad still false, the
projected data is undefined in every checking phase, and isLoading is true
exactly once the local store has answered that no record exists (lastFetched
undefined); while the initial IndexedDB read is still pending (lastFetched
null) isLoading is false, for all three hooks. -/
theorem C8_loading_projection (doctype : String) (hp : Option Bool)
    (swr : SWRState β) :
    (docProject doctype hp .loading false swr).data = none ∧
      (docProject doctype hp .loading false swr).isLoading = false ∧
      (docProject doctype hp .missing false swr).data = none ∧
      (docProject doctype hp .missing false swr).isLoading = true ∧
      (listProject doctype hp .loading false swr).data = none ∧
      (listProject doctype hp .loading false swr).isLoading = false ∧
      (listProject doctype hp .missing false swr).data = none ∧
      (listProject doctype hp .missing false swr).isLoading = true ∧
      (callProject (.loading : CacheRead β) false swr).data = none ∧
      (callProject (.loading : CacheRead β) false swr).isLoading = false ∧
      (callProject (.missing : CacheRead β) false swr).data = none ∧
      (callProject (.missing : CacheRead β) false swr).isLoading = true :=
  ⟨rfl, rfl, rfl, rfl, rfl, rfl, rfl, rfl, rfl, rfl, rfl, rfl⟩

/-- C2 counterexample: with a cached record holding payload 42 and a
permission check that resolved to false, the record is deleted from the store
and the error is the 403 CustomError, yet the projected data is the residual
cached payload 42 and not undefined as claimed. -/
theorem C2_counterexample :
    (docPermDeleteStore
        ((Store.empty).put
          ⟨"User_alice", "alice", "User", 100, "2024-01-01 10:00:00", some 1, (42 : Nat)⟩)
        "User" "alice" (some false)
        (.found ⟨"User_alice", "alice", "User", 100, "2024-01-01 10:00:00", some 1, 42⟩))
        (docKey "User" "alice") = none ∧
      (docProject "User" (some false)
        (.found ⟨"User_alice", "alice", "User", 100, "2024-01-01 10:00:00", some 1, (42 : Nat)⟩)
        false ⟨none, none, false, false⟩).error
        = some (HookError.custom (permissionError "User")) ∧
      (docProject "User" (some false)
        (.found ⟨"User_alice", "alice", "User", 100, "2024-01-01 10:00:00", some 1, (42 : Nat)⟩)
        false ⟨none, none, false, false⟩).data = some 42 := by
  refine ⟨?_, rfl, rfl⟩
  simp [docPermDeleteStore, permTruthy, lastFetchExist, Store.del]

/-- C2 amended: when the permission check for an identity with a cached
record resolves to false, the record at the composite key is deleted from the
store and the result's error is the structured 403 PermissionError, but the
result's data equals the residual cached payload (the in-memory lastFetched
state is not re-read after the deletion), not undefined. -/
theorem C2_permission_tombstone (st : Store β) (doctype name : String)
    (r : LastFetch β) (swr : SWRState β) :
    docPermDeleteStore st doctype name (some false) (.found r) (docKey doctype name)
        = none ∧
      (docProject doctype (some false) (.found r) false swr).error
        = some (HookError.custom (permissionError doctype)) ∧
      (docProject doctype (some false) (.found r) false swr).data = some r.data := by
  refine ⟨?_, rfl, rfl⟩
  simp [docPermDeleteStore, permTruthy, lastFetchExist, Store.del]

/-- C3 counterexample: with a cached record whose stored modified value is a
timestamp and a probe response whose modified field is present but empty, the
claimed rule (present and differing by string inequality) marks the record
stale, yet shouldLoad stays false because the source guards the inequality
branch behind JS truthiness of the field. -/
theorem C3_counterexample :
    docShouldLoadStep (some true)
        (.found ⟨"User_alice", "alice", "User", 100, "2024-01-01 10:00:00", some 1, (7 : Nat)⟩)
        (some (some "")) false = false ∧
      docStaleSpec
        (.found ⟨"User_alice", "alice", "User", 100, "2024-01-01 10:00:00", some 1, (7 : Nat)⟩)
        (some (some "")) = true := by
  decide

/-- C3 amended: with permission granted and shouldLoad initially false, the
document staleness decision equals the amended rule — stale iff the cached
record is absent, or the modified signal is present, truthy (non-empty) and
differs by string inequality from the stored modified value, or the signal
response arrived with the field explicitly absent while a cached record
exists — for every cache read that is not still pending. -/
theorem C3_doc_staleness (lf : CacheRead β) (modified : Option (Option String))
    (h : lf ≠ .loading) :
    docShouldLoadStep (some true) lf modified false = docStaleSpecAmended lf modified := by
  cases lf with
  | loading => exact absurd rfl h
  | missing =>
    simp [docShouldLoadStep, docStaleSpecAmended, permTruthy]
  | found r =>
    match modified with
    | none => simp [docShouldLoadStep, docStaleSpecAmended, permTruthy]
    | some none => simp [docShouldLoadStep, docStaleSpecAmended, permTruthy]
    | some (some s) => simp [docShouldLoadStep, docStaleSpecAmended, permTruthy]

/-- Witness for C3 at a concrete input: an absent cached record is stale. -/
theorem C3_doc_staleness_witness :
    (CacheRead.missing : CacheRead Nat) ≠ .loading ∧
      docShouldLoadStep (some true) (CacheRead.missing : CacheRead Nat) none false
        = docStaleSpecAmended (CacheRead.missing : CacheRead Nat) none :=
  ⟨by decide, C3_doc_staleness .missing none (by decide)⟩

/-- C5 counterexample: a cached call record with fetch time 0 and a supplied
lastModified hint that is the empty string, under a conversion sending every
string to 1 millisecond: the claimed rule (supplied hint converts strictly
above the fetch time) says stale, yet shouldLoad stays false because the
source guards the comparison behind JS truthiness of the hint. -/
theorem C5_counterexample :
    callShouldLoadStep (fun _ => 1)
        (.found ⟨"m_", "m_", "m", 0, "x", some 1, (7 : Nat)⟩)
        (some (.str "")) false = false ∧
      callStaleSpec (fun _ => 1)
        (.found ⟨"m_", "m_", "m", 0, "x", some 1, (7 : Nat)⟩)
        (some (.str "")) = true := by
  decide

/-- C5 amended: the call staleness decision, from shouldLoad initially false,
equals the amended rule — stale iff the cached record is absent, or a
supplied truthy hint (a non-empty string or a Date object) converts to
strictly more milliseconds than the record's fetch time — for every cache
read that is not still pending and every conversion; in particular a cached
record with no hint is never stale, so no fetch is issued on any mount. -/
theorem C5_call_staleness (toMs : String → Int) (lf : CacheRead β)
    (lastModified : Option DateVal) (h : lf ≠ .loading) :
    callShouldLoadStep toMs lf lastModified false
        = callStaleSpecAmended toMs lf lastModified ∧
      callFetchActive (callShouldLoadStep toMs lf lastModified false)
        = callStaleSpecAmended toMs lf lastModified := by
  have hmain : callShouldLoadStep toMs lf lastModified false
      = callStaleSpecAmended toMs lf lastModified := by
    cases lf with
    | loading => exact absurd rfl h
    | missing => rfl
    | found r =>
      match lastModified with
      | none => rfl
      | some d =>
        by_cases ht : dateValTruthy d = true
        · by_cases hc : convertDateToMilisecondsForGetCall toMs d > r.lastFetchedOn
          · simp [callShouldLoadStep, callStaleSpecAmended, ht, hc]
          · simp [callShouldLoadStep, callStaleSpecAmended, ht, hc]
        · simp [callShouldLoadStep, callStaleSpecAmended, ht]
  exact ⟨hmain, hmain⟩

/-- Witness for C5 at a concrete input: a cached record with no hint is not
stale, and no fetch is issued. -/
theorem C5_call_staleness_witness :
    (CacheRead.found ⟨"m_", "m_", "m", 0, "x", some 1, (7 : Nat)⟩ : CacheRead Nat)
        ≠ .loading ∧
      (callShouldLoadStep (fun _ => 0)
          (.found ⟨"m_", "m_", "m", 0, "x", some 1, (7 : Nat)⟩) none false
        = callStaleSpecAmended (fun _ => 0)
          (.found ⟨"m_", "m_", "m", 0, "x", some 1, (7 : Nat)⟩) none ∧
      callFetchActive (callShouldLoadStep (fun _ => 0)
          (.found ⟨"m_", "m_", "m", 0, "x", some 1, (7 : Nat)⟩) none false)
        = callStaleSpecAmended (fun _ => 0)
          (.found ⟨"m_", "m_", "m", 0, "x", some 1, (7 : Nat)⟩) none) :=
  ⟨by decide,
    C5_call_staleness (fun _ => 0)
      (.found ⟨"m_", "m_", "m", 0, "x", some 1, (7 : Nat)⟩) none (by decide)⟩

/-- C1 counterexample: a cached list record with stored latest-modified
2024-01-02 and fetch time 1000 ms, under a conversion sending that timestamp
to 2000 ms (a server clock ahead of the client at write time), with a probe
count equal to the stored count and a 1-row probe timestamp equal to the
stored latest-modified value: the claimed no-change signal (equal count, no
newer latest-modified) holds and the claim says the full fetch is never
issued, yet shouldLoad becomes true and the full list fetch key goes active,
because the source compares the probe timestamp to the record's
lastFetchedOn time. -/
theorem C1_counterexample :
    listStaleSpec (fun s => if s = "2024-01-02 00:00:00" then 2000 else 0)
        (.found ⟨"Task_", "Task_", "Task", 1000, "2024-01-02 00:00:00", some 5, (7 : Nat)⟩)
        (some 5) (some ["2024-01-02 00:00:00"]) = false ∧
      listShouldLoadStep (fun s => if s = "2024-01-02 00:00:00" then 2000 else 0)
        (some true)
        (.found ⟨"Task_", "Task_", "Task", 1000, "2024-01-02 00:00:00", some 5, (7 : Nat)⟩)
        (some 5) (some ["2024-01-02 00:00:00"]) false = true ∧
      listFetchActive
        (listShouldLoadStep (fun s => if s = "2024-01-02 00:00:00" then 2000 else 0)
          (some true)
          (.found ⟨"Task_", "Task_", "Task", 1000, "2024-01-02 00:00:00", some 5, (7 : Nat)⟩)
          (some 5) (some ["2024-01-02 00:00:00"]) false)
        (some true) = true := by
  decide

/-- C1 amended: with a cached record, permission granted, and a comparison
signal indicating no change in the sense the source checks it (Document:
probe modified equals the stored modified value; DocumentList: probe count
equals the stored count and the 1-row probe timestamp does not exceed the
record's lastFetchedOn fetch time — not the stored latest-modified value,
see C4; Call: any supplied hint does not convert past the record's fetch
time), shouldLoad stays false, the full fetch key stays null, and the
projected data is the cached payload, for all three hooks. -/
theorem C1_cache_hit_skips_fetch (doctype : String) (toMs : String → Int)
    (r rl rc : LastFetch β) (c : Int) (m : String)
    (lm : Option DateVal) (swr : SWRState β)
    (hcount : rl.count = some c)
    (hmod : toMs m ≤ rl.lastFetchedOn)
    (hlm : ∀ d, lm = some d →
      convertDateToMilisecondsForGetCall toMs d ≤ rc.lastFetchedOn) :
    docShouldLoadStep (some true) (.found r) (some (some r.modified)) false = false ∧
      docFetchActive
        (docShouldLoadStep (some true) (.found r) (some (some r.modified)) false)
        (some true) = false ∧
      (docProject doctype (some true) (.found r) false swr).data = some r.data ∧
      listShouldLoadStep toMs (some true) (.found rl) (some c) (some [m]) false = false ∧
      listFetchActive
        (listShouldLoadStep toMs (some true) (.found rl) (some c) (some [m]) false)
        (some true) = false ∧
      (listProject doctype (some true) (.found rl) false swr).data = some rl.data ∧
      callShouldLoadStep toMs (.found rc) lm false = false ∧
      callFetchActive (callShouldLoadStep toMs (.found rc) lm false) = false ∧
      (callProject (.found rc) false swr).data = some rc.data := by
  have hdoc : docShouldLoadStep (some true) (.found r) (some (some r.modified)) false
      = false := by
    simp [docShouldLoadStep, permTruthy]
  have hlist : listShouldLoadStep toMs (some true) (.found rl) (some c) (some [m]) false
      = false := by
    have h' : ¬ toMs m > rl.lastFetchedOn := not_lt.mpr hmod
    simp [listShouldLoadStep, permTruthy, hcount, h']
  have hcall : callShouldLoadStep toMs (.found rc) lm false = false := by
    cases lm with
    | none => rfl
    | some d =>
      have h' : ¬ convertDateToMilisecondsForGetCall toMs d > rc.lastFetchedOn :=
        not_lt.mpr (hlm d rfl)
      by_cases ht : dateValTruthy d = true
      · simp [callShouldLoadStep, ht, h']
      · simp [callShouldLoadStep, ht]
  refine ⟨hdoc, ?_, rfl, hlist, ?_, rfl, hcall, ?_, rfl⟩
  · rw [hdoc]; rfl
  · rw [hlist]; rfl
  · rw [hcall]; rfl

/-- Witness for C1 at concrete records and no-change signals. -/
theorem C1_cache_hit_skips_fetch_witness :
    docShouldLoadStep (some true)
        (.found ⟨"User_alice", "alice", "User", 100, "2024-01-01 10:00:00", some 1, (42 : Nat)⟩)
        (some (some "2024-01-01 10:00:00")) false = false ∧
      docFetchActive
        (docShouldLoadStep (some true)
          (.found ⟨"User_alice", "alice", "User", 100, "2024-01-01 10:00:00", some 1, (42 : Nat)⟩)
          (some (some "2024-01-01 10:00:00")) false)
        (some true) = false ∧
      (docProject "User" (some true)
        (.found ⟨"User_alice", "alice", "User", 100, "2024-01-01 10:00:00", some 1, (42 : Nat)⟩)
        false ⟨none, none, false, false⟩).data = some 42 ∧
      listShouldLoadStep (fun _ => 0) (some true)
        (.found ⟨"Task_", "Task_", "Task", 100, "2024-01-01 10:00:00", some 5, (43 : Nat)⟩)
        (some 5) (some ["2024-01-01 10:00:00"]) false = false ∧
      listFetchActive
        (listShouldLoadStep (fun _ => 0) (some true)
          (.found ⟨"Task_", "Task_", "Task", 100, "2024-01-01 10:00:00", some 5, (43 : Nat)⟩)
          (some 5) (some ["2024-01-01 10:00:00"]) false)
        (some true) = false ∧
      (listProject "User" (some true)
        (.found ⟨"Task_", "Task_", "Task", 100, "2024-01-01 10:00:00", some 5, (43 : Nat)⟩)
        false ⟨none, none, false, false⟩).data = some 43 ∧
      callShouldLoadStep (fun _ => 0)
        (.found ⟨"m_", "m_", "m", 100, "x", some 1, (44 : Nat)⟩)
        (some (.date 50)) false = false ∧
      callFetchActive
        (callShouldLoadStep (fun _ => 0)
          (.found ⟨"m_", "m_", "m", 100, "x", some 1, (44 : Nat)⟩)
          (some (.date 50)) false) = false ∧
      (callProject
        (.found ⟨"m_", "m_", "m", 100, "x", some 1, (44 : Nat)⟩)
        false ⟨none, none, false, false⟩).data = some 44 :=
  C1_cache_hit_skips_fetch "User" (fun _ => 0) _ _ _ 5 "2024-01-01 10:00:00"
    (some (.date 50)) ⟨none, none, false, false⟩ (by decide) (by decide)
    (by intro d hd; cases hd; decide)

/-- C4 counterexample: a cached list record whose stored latest-modified is
2024-01-01, stored count 5 and fetch time 3000 ms, with a probe count of 5
and a 1-row probe timestamp of 2024-01-02 (strictly newer than the stored
latest-modified under the given conversion): the claimed rule says stale, yet
shouldLoad stays false because the source compares the probe timestamp to the
record's lastFetchedOn time, which is larger. -/
theorem C4_counterexample :
    listShouldLoadStep (fun s => if s = "2024-01-02 00:00:00" then 2000 else 1000)
        (some true)
        (.found ⟨"Task_", "Task_", "Task", 3000, "2024-01-01 00:00:00", some 5, (7 : Nat)⟩)
        (some 5) (some ["2024-01-02 00:00:00"]) false = false ∧
      listStaleSpec (fun s => if s = "2024-01-02 00:00:00" then 2000 else 1000)
        (.found ⟨"Task_", "Task_", "Task", 3000, "2024-01-01 00:00:00", some 5, (7 : Nat)⟩)
        (some 5) (some ["2024-01-02 00:00:00"]) = true := by
  decide

/-- C4 amended: list staleness is decided in two stages — the 1-row
modified-descending probe query is keyed active exactly when a cached record
exists and the remote count equals the stored count (countNotChanged), a
present differing remote count is stale at the first stage, and the probe
timestamp at the second stage is compared to the record's lastFetchedOn fetch
time, not to its stored latest-modified value, with staleness on a strictly
newer probe; when both stages pass, shouldLoad stays false and the full list
fetch key stays null. -/
theorem C4_list_staleness (toMs : String → Int) (lf : CacheRead β)
    (listCount : Option Int) (modified : Option (List String)) (h : lf ≠ .loading) :
    (countNotChanged lf listCount = true ↔
        ∃ r c, lf = .found r ∧ listCount = some c ∧ r.count = some c) ∧
      listShouldLoadStep toMs (some true) lf listCount modified false
        = listStaleSpecAmended toMs lf listCount modified ∧
      listFetchActive
        (listShouldLoadStep toMs (some true) lf listCount modified false)
        (some true)
        = listStaleSpecAmended toMs lf listCount modified := by
  have hgate : countNotChanged lf listCount = true ↔
      ∃ r c, lf = .found r ∧ listCount = some c ∧ r.count = some c := by
    cases lf <;> cases listCount <;> simp [countNotChanged]
  have hmain : listShouldLoadStep toMs (some true) lf listCount modified false
      = listStaleSpecAmended toMs lf listCount modified := by
    cases lf with
    | loading => exact absurd rfl h
    | missing => rfl
    | found r =>
      by_cases hcnt : (listCount.isSome && listCount != r.count) = true
      · simp [listShouldLoadStep, listStaleSpecAmended, permTruthy, hcnt]
      · match modified with
        | none => simp [listShouldLoadStep, listStaleSpecAmended, permTruthy, hcnt]
        | some [] => simp [listShouldLoadStep, listStaleSpecAmended, permTruthy, hcnt]
        | some (m :: rest) =>
          by_cases hm : toMs m > r.lastFetchedOn
          · simp [listShouldLoadStep, listStaleSpecAmended, permTruthy, hcnt, hm]
          · simp [listShouldLoadStep, listStaleSpecAmended, permTruthy, hcnt, hm]
  refine ⟨hgate, hmain, ?_⟩
  rw [hmain]
  cases hb : listStaleSpecAmended toMs lf listCount modified <;> rfl

/-- Witness for C4 at a concrete record: both stages pass, so the record is
not stale and the full fetch key stays null. -/
theorem C4_list_staleness_witness :
    (countNotChanged
        (.found ⟨"Task_", "Task_", "Task", 3000, "2024-01-01 00:00:00", some 5, (7 : Nat)⟩)
        (some 5) = true ↔
      ∃ r c,
        (CacheRead.found
          ⟨"Task_", "Task_", "Task", 3000, "2024-01-01 00:00:00", some 5, (7 : Nat)⟩
            : CacheRead Nat) = .found r ∧
        (some 5 : Option Int) = some c ∧ r.count = some c) ∧
      listShouldLoadStep (fun _ => 1000) (some true)
        (.found ⟨"Task_", "Task_", "Task", 3000, "2024-01-01 00:00:00", some 5, (7 : Nat)⟩)
        (some 5) (some ["2024-01-01 00:00:00"]) false
        = listStaleSpecAmended (fun _ => 1000)
          (.found ⟨"Task_", "Task_", "Task", 3000, "2024-01-01 00:00:00", some 5, (7 : Nat)⟩)
          (some 5) (some ["2024-01-01 00:00:00"]) ∧
      listFetchActive
        (listShouldLoadStep (fun _ => 1000) (some true)
          (.found ⟨"Task_", "Task_", "Task", 3000, "2024-01-01 00:00:00", some 5, (7 : Nat)⟩)
          (some 5) (some ["2024-01-01 00:00:00"]) false)
        (some true)
        = listStaleSpecAmended (fun _ => 1000)
          (.found ⟨"Task_", "Task_", "Task", 3000, "2024-01-01 00:00:00", some 5, (7 : Nat)⟩)
          (some 5) (some ["2024-01-01 00:00:00"]) :=
  C4_list_staleness (fun _ => 1000)
    (.found ⟨"Task_", "Task_", "Task", 3000, "2024-01-01 00:00:00", some 5, (7 : Nat)⟩)
    (some 5) (some ["2024-01-01 00:00:00"]) (by decide)

/-- A run of successful document write-backs stores exactly the write times
as the successive lastFetchedOn values, whatever the starting store. -/
lemma docRunFetchedAts_eq (doctype name : String) :
    ∀ (ws : List (Int × FrappeDocM β)) (st : Store (FrappeDocM β)),
      docRunFetchedAts doctype name st ws = ws.map Prod.fst
  | [], _ => rfl
  | (t, d) :: rest, st => by
    have hput :
        (docWriteBack st doctype name t .missing (some d) none) (docKey doctype name)
          = some
            { _id := docKey doctype name
              lastFetchedOn := t
              modified := d.modified
              name := name
              doctype := doctype
              data := d
              count := some 1 } := by
      simp [docWriteBack, Store.put]
    simp [docRunFetchedAts, hput, docRunFetchedAts_eq doctype name rest]

/-- C6: a write-back after a successful full fetch stores, under the
composite key, a record whose payload is the fetched payload and whose
lastFetchedOn is the write time, so with a monotone wall clock the stored
lastFetchedOn never decreases, for all three hooks; moreover, over any run of
successful document write-backs the successive stored lastFetchedOn values
are exactly the write times, hence non-decreasing whenever the clock is. -/
theorem C6_write_through_monotone
    (st : Store (FrappeDocM β)) (stl stc : Store β)
    (doctype name qs method nowStr : String) (enc : String → String)
    (fmt : Int → String) (params : Option (List (String × String))) (now : Int)
    (lfd : CacheRead (FrappeDocM β)) (lfl lfc : CacheRead β)
    (d : FrappeDocM β) (dl dc : β) (errd errl errc : Option String)
    (modified : Option (List String)) (listCount : Option Int) (lm : Option DateVal)
    (rd : LastFetch (FrappeDocM β)) (rl rc : LastFetch β)
    (hd : st (docKey doctype name) = some rd) (hdc : rd.lastFetchedOn ≤ now)
    (hl : stl (listKey doctype qs) = some rl) (hlc : rl.lastFetchedOn ≤ now)
    (hc : stc (callKey enc method params) = some rc) (hcc : rc.lastFetchedOn ≤ now) :
    (∃ r', docWriteBack st doctype name now lfd (some d) errd (docKey doctype name)
          = some r'
        ∧ r'.data = d ∧ r'.lastFetchedOn = now ∧ rd.lastFetchedOn ≤ r'.lastFetchedOn) ∧
      (∃ r', listWriteBack stl doctype qs now nowStr lfl modified listCount (some dl)
            errl (listKey doctype qs) = some r'
        ∧ r'.data = dl ∧ r'.lastFetchedOn = now ∧ rl.lastFetchedOn ≤ r'.lastFetchedOn) ∧
      (∃ r', callWriteBack fmt enc stc method params now lfc lm (some dc) errc
            (callKey enc method params) = some r'
        ∧ r'.data = dc ∧ r'.lastFetchedOn = now ∧ rc.lastFetchedOn ≤ r'.lastFetchedOn) ∧
      (∀ ws : List (Int × FrappeDocM β),
        docRunFetchedAts doctype name st ws = ws.map Prod.fst) ∧
      (∀ ws : List (Int × FrappeDocM β), List.Chain' (· ≤ ·) (ws.map Prod.fst) →
        List.Chain' (· ≤ ·) (docRunFetchedAts doctype name st ws)) := by
  refine ⟨?_, ?_, ?_, ?_, ?_⟩
  · refine ⟨⟨docKey doctype name, name, doctype, now, d.modified, some 1, d⟩, ?_, rfl, rfl, hdc⟩
    simp [docWriteBack, Store.put]
  · refine ⟨⟨listKey doctype qs, listKey doctype qs, doctype, now,
      (match modified with
       | some (m :: _) => if strTruthy m then m else nowStr
       | _ => nowStr), listCount, dl⟩, ?_, rfl, rfl, hlc⟩
    simp [listWriteBack, Store.put]
  · refine ⟨⟨callKey enc method params, callKey enc method params, method, now,
      (match lm with
       | some dv => if dateValTruthy dv then checkTypeOfDate fmt dv else fmt now
       | none => fmt now), some 1, dc⟩, ?_, rfl, rfl, hcc⟩
    simp [callWriteBack, Store.put]
  · exact fun ws => docRunFetchedAts_eq doctype name ws st
  · intro ws hchain
    rw [docRunFetchedAts_eq doctype name ws st]
    exact hchain

/-- Witness for C6 at concrete stores each holding one earlier record and a
later write time. -/
theorem C6_write_through_monotone_witness :
    (∃ r', docWriteBack
          ((Store.empty).put ⟨"U_a", "a", "U", 50, "o", some 1, (⟨"o", 7⟩ : FrappeDocM Nat)⟩)
          "U" "a" 60 .missing (some ⟨"n", 10⟩) none (docKey "U" "a") = some r'
        ∧ r'.data = (⟨"n", 10⟩ : FrappeDocM Nat) ∧ r'.lastFetchedOn = 60
        ∧ (⟨"U_a", "a", "U", 50, "o", some 1, (⟨"o", 7⟩ : FrappeDocM Nat)⟩
            : LastFetch (FrappeDocM Nat)).lastFetchedOn ≤ r'.lastFetchedOn) ∧
      (∃ r', listWriteBack
          ((Store.empty).put ⟨"U_q", "U_q", "U", 50, "o", some 5, (8 : Nat)⟩)
          "U" "q" 60 "ts" .missing none (some 5) (some 11) none (listKey "U" "q") = some r'
        ∧ r'.data = (11 : Nat) ∧ r'.lastFetchedOn = 60
        ∧ (⟨"U_q", "U_q", "U", 50, "o", some 5, (8 : Nat)⟩
            : LastFetch Nat).lastFetchedOn ≤ r'.lastFetchedOn) ∧
      (∃ r', callWriteBack (fun _ => "t") id
          ((Store.empty).put ⟨"m_", "m_", "m", 50, "o", some 1, (9 : Nat)⟩)
          "m" none 60 .missing none (some 12) none (callKey id "m" none) = some r'
        ∧ r'.data = (12 : Nat) ∧ r'.lastFetchedOn = 60
        ∧ (⟨"m_", "m_", "m", 50, "o", some 1, (9 : Nat)⟩
            : LastFetch Nat).lastFetchedOn ≤ r'.lastFetchedOn) ∧
      (∀ ws : List (Int × FrappeDocM Nat),
        docRunFetchedAts "U" "a"
          ((Store.empty).put ⟨"U_a", "a", "U", 50, "o", some 1, (⟨"o", 7⟩ : FrappeDocM Nat)⟩)
          ws = ws.map Prod.fst) ∧
      (∀ ws : List (Int × FrappeDocM Nat), List.Chain' (· ≤ ·) (ws.map Prod.fst) →
        List.Chain' (· ≤ ·)
          (docRunFetchedAts "U" "a"
            ((Store.empty).put ⟨"U_a", "a", "U", 50, "o", some 1, (⟨"o", 7⟩ : FrappeDocM Nat)⟩)
            ws)) :=
  C6_write_through_monotone
    ((Store.empty).put ⟨"U_a", "a", "U", 50, "o", some 1, (⟨"o", 7⟩ : FrappeDocM Nat)⟩)
    ((Store.empty).put ⟨"U_q", "U_q", "U", 50, "o", some 5, (8 : Nat)⟩)
    ((Store.empty).put ⟨"m_", "m_", "m", 50, "o", some 1, (9 : Nat)⟩)
    "U" "a" "q" "m" "ts" id (fun _ => "t") none 60 .missing .missing .missing
    ⟨"n", 10⟩ 11 12 none none none none (some 5) none
    ⟨"U_a", "a", "U", 50, "o", some 1, ⟨"o", 7⟩⟩
    ⟨"U_q", "U_q", "U", 50, "o", some 5, 8⟩
    ⟨"m_", "m_", "m", 50, "o", some 1, 9⟩
    (by decide) (by decide) (by decide) (by decide) (by decide) (by decide)

/-- C7 at the failing input (useFrappeGetCallOffline, method report.totals,
params year=2023, a cached record under the composite key, and a failing
fetch): the error branch deletes at the template-literal key
report.totals_[object Object] rather than at the composite key, so the
cached record is still present afterwards, contradicting the claimed (and
comment-documented) defensive invalidation; the document write-back at the
same shape of input does delete the cached record, and with no cached record
it leaves the store untouched while the error is surfaced. -/
theorem C7_call_error_delete_misses :
    callKey id "report.totals" (some [("year", "2023")]) = "report.totals_year=2023" ∧
      jsTemplateParams (some [("year", "2023")]) = "[object Object]" ∧
      callWriteBack (fun _ => "t") id
        ((Store.empty).put
          ⟨"report.totals_year=2023", "report.totals_year=2023", "report.totals",
            100, "x", some 1, (7 : Nat)⟩)
        "report.totals" (some [("year", "2023")]) 200
        (.found ⟨"report.totals_year=2023", "report.totals_year=2023", "report.totals",
          100, "x", some 1, (7 : Nat)⟩)
        none none (some "NetworkError")
        (callKey id "report.totals" (some [("year", "2023")]))
        = some ⟨"report.totals_year=2023", "report.totals_year=2023", "report.totals",
            100, "x", some 1, (7 : Nat)⟩ ∧
      (callProject
        (.found ⟨"report.totals_year=2023", "report.totals_year=2023", "report.totals",
          100, "x", some 1, (7 : Nat)⟩)
        true ⟨none, some "NetworkError", false, false⟩).error
        = some (.fetchErr "NetworkError") ∧
      docWriteBack
        ((Store.empty).put
          ⟨"User_alice", "alice", "User", 100, "x", some 1, (⟨"x", 7⟩ : FrappeDocM Nat)⟩)
        "User" "alice" 200
        (.found ⟨"User_alice", "alice", "User", 100, "x", some 1, ⟨"x", 7⟩⟩)
        none (some "NetworkError") (docKey "User" "alice") = none ∧
      docWriteBack (Store.empty : Store (FrappeDocM Nat)) "User" "alice" 200
        .missing none (some "NetworkError") = Store.empty := by
  refine ⟨by decide, rfl, by decide, rfl, by decide, rfl⟩

end FrappeOffline
